import Mathlib

/-!
Verification development for the dependency-scan-and-upgrade-candidate
pipeline of the scanned repository (tools/dependency_scanner.py).

The Python class DependencyScanner is shallowly embedded below.  Design of
the embedding:

* A dependency record (a Python dict with string keys) becomes the
  structure Dep; keys that are present only for some ecosystems
  (type, group_id, artifact_id) become Option fields, where none models
  the absence of the key.
* A project directory becomes a list of FsFile values, each carrying its
  path (relative to the project root, as a string) and its content.
  File contents are represented at the boundary at which the source hands
  them to its parsers: a requirements.txt as the list of its lines
  (read_text().splitlines()), a package.json as its two parsed dependency
  maps (the result of json.loads, with none modelling an absent key), a
  pom.xml as the list of (groupId, artifactId, version) triples extracted
  by the re.findall pattern, and unreadable for a file whose read or parse
  raises (the except branch of each parser).
* The registry interaction of each checker (a pip or npm subprocess, or an
  HTTP GET against Maven Central) is abstracted to the latest-version
  string it reports: RegistryResult.ok latest is a lookup that reports
  latest, RegistryResult.err covers every failure path of the source
  (raised exception, non-zero exit status, missing or empty response),
  all of which reach the final return None of the checker.
* Python glob patterns are modelled on path strings: **/name matches every
  file whose final path component equals name, and **/*.csproj matches
  every file whose final component ends with .csproj.
-/

namespace DepScan

/-- A parsed dependency record: the dict built by the parsers in
tools/dependency_scanner.py.  Optional fields model dict keys that are
present only for some ecosystems. -/
structure Dep where
  name : String
  version : String
  constraint : Option String := none
  dtype : Option String := none
  group_id : Option String := none
  artifact_id : Option String := none
  file : String
deriving DecidableEq, Repr

/-- An upgrade-candidate record: the dict built by the checkers. -/
structure Candidate where
  name : String
  current_version : String
  latest_version : String
  dtype : Option String := none
  group_id : Option String := none
  artifact_id : Option String := none
  file : String
deriving DecidableEq, Repr

/-- Content of a project file, represented at the boundary at which the
source hands it to its parser (see the module docstring). -/
inductive FileContent where
  | reqLines (lines : List String)
  | pkgJson (deps devDeps : Option (List (String × String)))
  | pomTriples (entries : List (String × String × String))
  | unreadable
deriving DecidableEq, Repr

/-- A file of the scanned project: its path relative to the project root
and its content. -/
structure FsFile where
  path : String
  content : FileContent
deriving DecidableEq, Repr

/-- Result of one registry lookup, as abstracted in the module docstring:
ok latest is a lookup that reports latest as the newest version, err is
any failure (exception, non-zero exit, missing or empty response). -/
inductive RegistryResult where
  | ok (latest : String)
  | err
deriving DecidableEq, Repr

/-- Python default whitespace for str.strip, on one character. -/
def isSpaceChar (c : Char) : Bool :=
  c = ' ' || c = '\t' || c = '\n' || c = '\r' || c = '\x0b' || c = '\x0c'

/-- Python str.strip() on a character list: drop leading and trailing
whitespace. -/
def trimChars (l : List Char) : List Char :=
  ((l.dropWhile isSpaceChar).reverse.dropWhile isSpaceChar).reverse

/-- Python str.strip() with no argument. -/
def pyStrip (s : String) : String :=
  ⟨trimChars s.data⟩

/-- Whether the first list is an initial segment of the second. -/
def startsWithChars : List Char → List Char → Bool
  | [], _ => true
  | _ :: _, [] => false
  | a :: as, b :: bs => a = b && startsWithChars as bs

/-- Python str.startswith. -/
def pyStartsWith (s pre : String) : Bool :=
  startsWithChars pre.data s.data

/-- Python str.endswith. -/
def pyEndsWith (s suf : String) : Bool :=
  startsWithChars suf.data.reverse s.data.reverse

/-- Python str[n:] (by code points). -/
def pyDrop (s : String) (n : Nat) : String :=
  ⟨s.data.drop n⟩

/-- The text before and after the first occurrence of the separator, or
none when the separator (assumed non-empty) does not occur. -/
def splitFirstChars (sep : List Char) : List Char → Option (List Char × List Char)
  | [] => none
  | c :: rest =>
      if startsWithChars sep (c :: rest) then some ([], (c :: rest).drop sep.length)
      else
        match splitFirstChars sep rest with
        | some p => some (c :: p.1, p.2)
        | none => none

/-- The final path component of a relative path string: the text after the
last slash. -/
def fileName (p : String) : String :=
  ⟨(p.data.reverse.takeWhile (fun c => c ≠ '/')).reverse⟩

/-- Model of project_path.glob applied to a pattern of the shape **/name:
every file whose final path component equals the given name. -/
def globName (files : List FsFile) (n : String) : List FsFile :=
  files.filter (fun f => fileName f.path = n)

/-- Model of project_path.glob applied to the pattern **/*.csproj: every
file whose final path component ends with the given suffix. -/
def globSuffix (files : List FsFile) (s : String) : List FsFile :=
  files.filter (fun f => pyEndsWith (fileName f.path) s)

/-- DependencyScanner._detect_project_type: tests marker files in a fixed
order (python, nodejs, maven, gradle, dotnet) and returns on the first
non-empty match, together with the matching files; (none, []) when no
marker is present. -/
def detect_project_type (files : List FsFile) : Option String × List FsFile :=
  if globName files "requirements.txt" ≠ [] ∨ globName files "setup.py" ≠ []
      ∨ globName files "pyproject.toml" ≠ [] then
    (some "python",
      globName files "requirements.txt" ++ globName files "setup.py"
        ++ globName files "pyproject.toml")
  else if globName files "package.json" ≠ [] then
    (some "nodejs", globName files "package.json")
  else if globName files "pom.xml" ≠ [] then
    (some "maven", globName files "pom.xml")
  else if globName files "build.gradle" ++ globName files "build.gradle.kts" ≠ [] then
    (some "gradle", globName files "build.gradle" ++ globName files "build.gradle.kts")
  else if globSuffix files ".csproj" ≠ [] then
    (some "dotnet", globSuffix files ".csproj")
  else (none, [])

/-- Python str.split(sep, 1): the part before the first occurrence of sep
and the remainder.  Only meaningful when sep occurs in the string. -/
def splitFirst (sep line : String) : String × String :=
  match splitFirstChars sep.data line.data with
  | some p => (⟨p.1⟩, ⟨p.2⟩)
  | none => (line, "")

/-- Python (sep in line): whether sep occurs as a substring. -/
def containsSep (sep line : String) : Bool :=
  (splitFirstChars sep.data line.data).isSome

/-- The body of the line loop of _parse_requirements_txt: strip the line,
skip blank lines and comment lines, split on == or on >=, otherwise drop
the line. -/
def parseReqLine (file rawLine : String) : Option Dep :=
  let line := pyStrip rawLine
  if line = "" ∨ pyStartsWith line "#" then none
  else if containsSep "==" line then
    let p := splitFirst "==" line
    some { name := pyStrip p.1, version := pyStrip p.2, constraint := some "==", file := file }
  else if containsSep ">=" line then
    let p := splitFirst ">=" line
    some { name := pyStrip p.1, version := pyStrip p.2, constraint := some ">=", file := file }
  else none

/-- DependencyScanner._parse_requirements_txt: the line loop over the file
content; a file whose read raises contributes nothing (except branch). -/
def parse_requirements_txt (file : String) : FileContent → List Dep
  | .reqLines lines => lines.filterMap (parseReqLine file)
  | _ => []

/-- The body of the entry loop of _parse_package_json: strip a leading
caret or tilde into the constraint field, default constraint caret. -/
def parsePkgEntry (dep_type file : String) (nv : String × String) : Dep :=
  let version := nv.2
  if pyStartsWith version "^" then
    { name := nv.1, version := pyDrop version 1, constraint := some "^",
      dtype := some dep_type, file := file }
  else if pyStartsWith version "~" then
    { name := nv.1, version := pyDrop version 1, constraint := some "~",
      dtype := some dep_type, file := file }
  else
    { name := nv.1, version := version, constraint := some "^",
      dtype := some dep_type, file := file }

/-- DependencyScanner._parse_package_json: iterates the dependencies map
and then the devDependencies map (an absent key, modelled by none,
contributes nothing); a file whose read or json.loads raises contributes
nothing (except branch). -/
def parse_package_json (file : String) : FileContent → List Dep
  | .pkgJson deps devDeps =>
      ((deps.getD []).map (parsePkgEntry "dependencies" file)) ++
      ((devDeps.getD []).map (parsePkgEntry "devDependencies" file))
  | _ => []

/-- DependencyScanner._parse_pom_xml: one record per extracted
(groupId, artifactId, version) triple, named groupId:artifactId; a file
whose read raises contributes nothing (except branch). -/
def parse_pom_xml (file : String) : FileContent → List Dep
  | .pomTriples entries =>
      entries.map (fun t =>
        { name := t.1 ++ ":" ++ t.2.1, group_id := some t.1,
          artifact_id := some t.2.1, version := t.2.2, file := file })
  | _ => []

/-- The body of the file loop of _parse_dependencies: dispatch on project
type and file name; unrecognized combinations contribute nothing. -/
def parseFile (project_type : String) (f : FsFile) : List Dep :=
  if project_type = "python" then
    if fileName f.path = "requirements.txt" then parse_requirements_txt f.path f.content
    else []
  else if project_type = "nodejs" then
    if fileName f.path = "package.json" then parse_package_json f.path f.content
    else []
  else if project_type = "maven" then
    if fileName f.path = "pom.xml" then parse_pom_xml f.path f.content
    else []
  else []

/-- DependencyScanner._parse_dependencies: concatenation of the records of
each dependency file in order. -/
def parse_dependencies (project_type : String) : List FsFile → List Dep
  | [] => []
  | f :: rest => parseFile project_type f ++ parse_dependencies project_type rest

/-- DependencyScanner._check_python_upgrade: compare the reported latest
version with the current one by string inequality; every failure of the
pip subprocess or of its output parsing yields no candidate. -/
def check_python_upgrade (registry : String → RegistryResult) (dependency : Dep) :
    Option Candidate :=
  match registry dependency.name with
  | .ok latest_version =>
      if latest_version ≠ dependency.version then
        some { name := dependency.name, current_version := dependency.version,
               latest_version := latest_version, file := dependency.file }
      else none
  | .err => none

/-- DependencyScanner._check_nodejs_upgrade: compare the reported latest
version with the current one by string inequality; the candidate carries
dependency.get with default dependencies for its type field; every
failure of the npm subprocess yields no candidate. -/
def check_nodejs_upgrade (registry : String → RegistryResult) (dependency : Dep) :
    Option Candidate :=
  match registry dependency.name with
  | .ok latest_version =>
      if latest_version ≠ dependency.version then
        some { name := dependency.name, current_version := dependency.version,
               latest_version := latest_version,
               dtype := some (dependency.dtype.getD "dependencies"),
               file := dependency.file }
      else none
  | .err => none

/-- DependencyScanner._check_maven_upgrade: looks up groupId:artifactId;
a record without group_id or artifact_id keys raises KeyError, caught to
no candidate; otherwise compare reported latest with current by string
inequality; every HTTP failure yields no candidate. -/
def check_maven_upgrade (registry : String → RegistryResult) (dependency : Dep) :
    Option Candidate :=
  match dependency.group_id, dependency.artifact_id with
  | some g, some a =>
      match registry (g ++ ":" ++ a) with
      | .ok latest_version =>
          if latest_version ≠ dependency.version then
            some { name := g ++ ":" ++ a, current_version := dependency.version,
                   latest_version := latest_version, group_id := some g,
                   artifact_id := some a, file := dependency.file }
          else none
      | .err => none
  | _, _ => none

/-- The body of the dependency loop of _find_upgrade_candidates: dispatch
on project type; unsupported types contribute nothing. -/
def checkDep (registry : String → RegistryResult) (project_type : String) (dep : Dep) :
    Option Candidate :=
  if project_type = "python" then check_python_upgrade registry dep
  else if project_type = "nodejs" then check_nodejs_upgrade registry dep
  else if project_type = "maven" then check_maven_upgrade registry dep
  else none

/-- DependencyScanner._find_upgrade_candidates: appends the candidate of
each dependency whose check returns one, in order. -/
def find_upgrade_candidates (registry : String → RegistryResult) (project_type : String) :
    List Dep → List Candidate
  | [] => []
  | dep :: rest =>
      match checkDep registry project_type dep with
      | some c => c :: find_upgrade_candidates registry project_type rest
      | none => find_upgrade_candidates registry project_type rest

/-- The dict returned by DependencyScanner._run: Option fields model the
presence of each key (the error dict carries only the error key; the
report dict carries the other four keys and no error key). -/
structure ScanOutput where
  error : Option String := none
  project_type : Option String := none
  dependency_files : Option (List String) := none
  dependencies : Option (List Dep) := none
  upgrade_candidates : Option (List Candidate) := none
deriving DecidableEq, Repr

/-- DependencyScanner._run: existence check, type detection (an undetected
type returns the error dict), parsing, upgrade checking, report assembly.
pathExists models project_path.exists(). -/
def run (pathExists : Bool) (files : List FsFile) (registry : String → RegistryResult) :
    ScanOutput :=
  if !pathExists then
    { error := some "Project path does not exist" }
  else
    match detect_project_type files with
    | (none, _) => { error := some "Could not determine project type" }
    | (some pt, dependency_files) =>
        let dependencies := parse_dependencies pt dependency_files
        let upgrade_candidates := find_upgrade_candidates registry pt dependencies
        { project_type := some pt,
          dependency_files := some (dependency_files.map FsFile.path),
          dependencies := some dependencies,
          upgrade_candidates := some upgrade_candidates }

end DepScan

namespace DepScan

/-! ## Helper definitions and lemmas shared by the claim theorems -/

/-- A file whose name the detector recognizes as a marker in some branch:
one of the seven literal marker names, or a .csproj suffix. -/
def isMarkerFile (f : FsFile) : Prop :=
  fileName f.path ∈ (["requirements.txt", "setup.py", "pyproject.toml", "package.json",
    "pom.xml", "build.gradle", "build.gradle.kts"] : List String)
  ∨ pyEndsWith (fileName f.path) ".csproj" = true

instance (f : FsFile) : Decidable (isMarkerFile f) := by
  unfold isMarkerFile; infer_instance

/-- A dependency record whose name agrees with its group and artifact ids
whenever it carries them.  Every record built by the parsers satisfies
this, and it makes the maven checker emit a candidate named after the
record. -/
def nameConsistent (d : Dep) : Prop :=
  ∀ g a, d.group_id = some g → d.artifact_id = some a → d.name = g ++ ":" ++ a

theorem filter_nil_of_none {α : Type} (p : α → Bool) :
    ∀ l : List α, (∀ a ∈ l, p a = false) → l.filter p = []
  | [], _ => rfl
  | a :: as, h => by
      have ha := h a (List.mem_cons_self a as)
      have hrest := filter_nil_of_none p as (fun b hb => h b (List.mem_cons_of_mem a hb))
      simp [List.filter, ha, hrest]

theorem globName_nil_of_no_markers {files : List FsFile}
    (h : ∀ f ∈ files, ¬ isMarkerFile f) {n : String}
    (hn : n ∈ (["requirements.txt", "setup.py", "pyproject.toml", "package.json",
      "pom.xml", "build.gradle", "build.gradle.kts"] : List String)) :
    globName files n = [] := by
  apply filter_nil_of_none
  intro f hf
  by_contra hc
  apply h f hf
  left
  have : fileName f.path = n := by
    simpa using Bool.of_not_eq_false hc
  rw [this]; exact hn

theorem globSuffix_nil_of_no_markers {files : List FsFile}
    (h : ∀ f ∈ files, ¬ isMarkerFile f) :
    globSuffix files ".csproj" = [] := by
  apply filter_nil_of_none
  intro f hf
  by_contra hc
  exact h f hf (Or.inr (Bool.of_not_eq_false hc))

/-- With no marker file in the tree, detection yields (none, []). -/
theorem detect_none_of_no_markers (files : List FsFile)
    (h : ∀ f ∈ files, ¬ isMarkerFile f) :
    detect_project_type files = (none, []) := by
  have e1 := globName_nil_of_no_markers h (n := "requirements.txt") (by simp)
  have e2 := globName_nil_of_no_markers h (n := "setup.py") (by simp)
  have e3 := globName_nil_of_no_markers h (n := "pyproject.toml") (by simp)
  have e4 := globName_nil_of_no_markers h (n := "package.json") (by simp)
  have e5 := globName_nil_of_no_markers h (n := "pom.xml") (by simp)
  have e6 := globName_nil_of_no_markers h (n := "build.gradle") (by simp)
  have e7 := globName_nil_of_no_markers h (n := "build.gradle.kts") (by simp)
  have e8 := globSuffix_nil_of_no_markers h
  simp [detect_project_type, e1, e2, e3, e4, e5, e6, e7, e8]

theorem mem_globName_marker {files : List FsFile} {f : FsFile} {n : String}
    (hn : n ∈ (["requirements.txt", "setup.py", "pyproject.toml", "package.json",
      "pom.xml", "build.gradle", "build.gradle.kts"] : List String))
    (hf : f ∈ globName files n) : isMarkerFile f := by
  unfold globName at hf
  rw [List.mem_filter] at hf
  left
  have : fileName f.path = n := by simpa using hf.2
  rw [this]; exact hn

theorem mem_globSuffix_marker {files : List FsFile} {f : FsFile}
    (hf : f ∈ globSuffix files ".csproj") : isMarkerFile f := by
  unfold globSuffix at hf
  rw [List.mem_filter] at hf
  exact Or.inr (by simpa using hf.2)

/-- Every file the detector returns bears a recognized marker name. -/
theorem detect_files_are_markers (files : List FsFile) :
    ∀ f ∈ (detect_project_type files).2, isMarkerFile f := by
  intro f hf
  unfold detect_project_type at hf
  by_cases c1 : globName files "requirements.txt" ≠ [] ∨ globName files "setup.py" ≠ []
      ∨ globName files "pyproject.toml" ≠ []
  · rw [if_pos c1] at hf
    rcases List.mem_append.mp hf with hm | hm
    · rcases List.mem_append.mp hm with hm2 | hm2
      · exact mem_globName_marker (by simp) hm2
      · exact mem_globName_marker (by simp) hm2
    · exact mem_globName_marker (by simp) hm
  · rw [if_neg c1] at hf
    by_cases c2 : globName files "package.json" ≠ []
    · rw [if_pos c2] at hf
      exact mem_globName_marker (by simp) hf
    · rw [if_neg c2] at hf
      by_cases c3 : globName files "pom.xml" ≠ []
      · rw [if_pos c3] at hf
        exact mem_globName_marker (by simp) hf
      · rw [if_neg c3] at hf
        by_cases c4 : globName files "build.gradle" ++ globName files "build.gradle.kts" ≠ []
        · rw [if_pos c4] at hf
          rcases List.mem_append.mp hf with hm | hm
          · exact mem_globName_marker (by simp) hm
          · exact mem_globName_marker (by simp) hm
        · rw [if_neg c4] at hf
          by_cases c5 : globSuffix files ".csproj" ≠ []
          · rw [if_pos c5] at hf
            exact mem_globSuffix_marker hf
          · rw [if_neg c5] at hf
            simp at hf

theorem find_cons (registry : String → RegistryResult) (pt : String) (d : Dep)
    (rest : List Dep) :
    find_upgrade_candidates registry pt (d :: rest)
      = match checkDep registry pt d with
        | some c => c :: find_upgrade_candidates registry pt rest
        | none => find_upgrade_candidates registry pt rest := rfl

theorem find_append (registry : String → RegistryResult) (pt : String) :
    ∀ l1 l2 : List Dep,
      find_upgrade_candidates registry pt (l1 ++ l2)
        = find_upgrade_candidates registry pt l1 ++ find_upgrade_candidates registry pt l2
  | [], _ => rfl
  | d :: rest, l2 => by
      have ih := find_append registry pt rest l2
      rw [List.cons_append, find_cons, find_cons]
      cases hd : checkDep registry pt d <;> simp [ih]

theorem find_length_le (registry : String → RegistryResult) (pt : String) :
    ∀ deps : List Dep, (find_upgrade_candidates registry pt deps).length ≤ deps.length
  | [] => Nat.le_refl 0
  | d :: rest => by
      have ih := find_length_le registry pt rest
      unfold find_upgrade_candidates
      cases checkDep registry pt d with
      | some c => simpa using Nat.succ_le_succ ih
      | none => simpa using Nat.le_succ_of_le ih

theorem mem_find (registry : String → RegistryResult) (pt : String) {c : Candidate} :
    ∀ {deps : List Dep}, c ∈ find_upgrade_candidates registry pt deps →
      ∃ d ∈ deps, checkDep registry pt d = some c
  | [], h => by simp [find_upgrade_candidates] at h
  | d :: rest, h => by
      rw [find_upgrade_candidates] at h
      cases hd : checkDep registry pt d with
      | some c0 =>
          rw [hd] at h
          rcases List.mem_cons.mp h with rfl | hmem
          · exact ⟨d, List.mem_cons_self d rest, hd⟩
          · obtain ⟨d2, hd2, hc2⟩ := mem_find registry pt hmem
            exact ⟨d2, List.mem_cons_of_mem d hd2, hc2⟩
      | none =>
          rw [hd] at h
          obtain ⟨d2, hd2, hc2⟩ := mem_find registry pt h
          exact ⟨d2, List.mem_cons_of_mem d hd2, hc2⟩

theorem check_python_name {registry : String → RegistryResult} {d : Dep} {c : Candidate}
    (h : check_python_upgrade registry d = some c) : c.name = d.name := by
  unfold check_python_upgrade at h
  split at h
  · split at h
    · cases h; rfl
    · cases h
  · cases h

theorem check_nodejs_name {registry : String → RegistryResult} {d : Dep} {c : Candidate}
    (h : check_nodejs_upgrade registry d = some c) : c.name = d.name := by
  unfold check_nodejs_upgrade at h
  split at h
  · split at h
    · cases h; rfl
    · cases h
  · cases h

theorem check_maven_name {registry : String → RegistryResult} {d : Dep} {c : Candidate}
    (h : check_maven_upgrade registry d = some c) (hn : nameConsistent d) :
    c.name = d.name := by
  unfold check_maven_upgrade at h
  split at h
  case _ g a hg ha =>
    split at h
    · split at h
      · cases h
        exact (hn g a hg ha).symm
      · cases h
    · cases h
  case _ => cases h

/-- A candidate the per-dependency dispatch emits is named after the
dependency record it came from, for every name-consistent record. -/
theorem checkDep_name {registry : String → RegistryResult} {pt : String} {d : Dep}
    {c : Candidate} (h : checkDep registry pt d = some c) (hn : nameConsistent d) :
    c.name = d.name := by
  unfold checkDep at h
  by_cases h1 : pt = "python"
  · rw [if_pos h1] at h; exact check_python_name h
  · rw [if_neg h1] at h
    by_cases h2 : pt = "nodejs"
    · rw [if_pos h2] at h; exact check_nodejs_name h
    · rw [if_neg h2] at h
      by_cases h3 : pt = "maven"
      · rw [if_pos h3] at h; exact check_maven_name h hn
      · rw [if_neg h3] at h; cases h

theorem parseReqLine_group_id {file l : String} {d : Dep}
    (h : parseReqLine file l = some d) : d.group_id = none := by
  unfold parseReqLine at h
  dsimp only at h
  split at h
  · cases h
  · split at h
    · cases h; rfl
    · split at h
      · cases h; rfl
      · cases h

theorem parseReqLine_nameConsistent {file l : String} {d : Dep}
    (h : parseReqLine file l = some d) : nameConsistent d := by
  intro g a hg _
  rw [parseReqLine_group_id h] at hg
  cases hg

theorem parsePkgEntry_group_id (dep_type file : String) (nv : String × String) :
    (parsePkgEntry dep_type file nv).group_id = none := by
  unfold parsePkgEntry
  dsimp only
  split
  · rfl
  · split <;> rfl

theorem parsePkgEntry_nameConsistent (dep_type file : String) (nv : String × String) :
    nameConsistent (parsePkgEntry dep_type file nv) := by
  intro g a hg _
  rw [parsePkgEntry_group_id] at hg
  cases hg

theorem parse_pom_nameConsistent {file : String} {content : FileContent} {d : Dep}
    (h : d ∈ parse_pom_xml file content) : nameConsistent d := by
  cases content with
  | pomTriples entries =>
      unfold parse_pom_xml at h
      obtain ⟨t, _, rfl⟩ := List.mem_map.mp h
      intro g a hg ha
      cases hg
      cases ha
      rfl
  | reqLines _ => cases h
  | pkgJson _ _ => cases h
  | unreadable => cases h

theorem parseFile_nameConsistent {pt : String} {f : FsFile} {d : Dep}
    (h : d ∈ parseFile pt f) : nameConsistent d := by
  unfold parseFile at h
  split at h
  · split at h
    · cases hc : f.content with
      | reqLines lines =>
          rw [hc] at h
          unfold parse_requirements_txt at h
          obtain ⟨l, _, hl⟩ := List.mem_filterMap.mp h
          exact parseReqLine_nameConsistent hl
      | pkgJson _ _ => rw [hc] at h; cases h
      | pomTriples _ => rw [hc] at h; cases h
      | unreadable => rw [hc] at h; cases h
    · cases h
  · split at h
    · split at h
      · cases hc : f.content with
        | pkgJson deps devDeps =>
            rw [hc] at h
            unfold parse_package_json at h
            rcases List.mem_append.mp h with hm | hm
            · obtain ⟨nv, _, rfl⟩ := List.mem_map.mp hm
              exact parsePkgEntry_nameConsistent _ _ _
            · obtain ⟨nv, _, rfl⟩ := List.mem_map.mp hm
              exact parsePkgEntry_nameConsistent _ _ _
        | reqLines _ => rw [hc] at h; cases h
        | pomTriples _ => rw [hc] at h; cases h
        | unreadable => rw [hc] at h; cases h
      · cases h
    · split at h
      · split at h
        · exact parse_pom_nameConsistent h
        · cases h
      · cases h

/-- Every record the parsing stage emits is name-consistent. -/
theorem parse_dependencies_nameConsistent {pt : String} {d : Dep} :
    ∀ {files : List FsFile}, d ∈ parse_dependencies pt files → nameConsistent d := by
  intro files
  induction files with
  | nil => intro h; cases h
  | cons f rest ih =>
      intro h
      rw [parse_dependencies] at h
      rcases List.mem_append.mp h with hm | hm
      · exact parseFile_nameConsistent hm
      · exact ih hm

/-! ## Claim theorems -/

/-- C1: for a dependency whose registry lookup reports latest, the python
and nodejs checkers produce a candidate exactly when the reported latest
version differs from the current version as strings; a dependency whose
reported latest equals its current version string contributes nothing to
the candidate list, and string-unequal but semantically equal versions
(such as 1.0 against 1.0.0, reachable by the witness instantiation) are
flagged. -/
theorem candidate_iff_string_differs (registry : String → RegistryResult) (dep : Dep)
    (latest : String) (hreg : registry dep.name = .ok latest) :
    ((check_python_upgrade registry dep).isSome ↔ latest ≠ dep.version)
    ∧ ((check_nodejs_upgrade registry dep).isSome ↔ latest ≠ dep.version)
    ∧ (latest = dep.version →
        find_upgrade_candidates registry "python" [dep] = []
        ∧ find_upgrade_candidates registry "nodejs" [dep] = []) := by
  have hp : check_python_upgrade registry dep
      = if latest ≠ dep.version then
          some { name := dep.name, current_version := dep.version,
                 latest_version := latest, file := dep.file }
        else none := by
    unfold check_python_upgrade
    rw [hreg]
  have hn : check_nodejs_upgrade registry dep
      = if latest ≠ dep.version then
          some { name := dep.name, current_version := dep.version,
                 latest_version := latest,
                 dtype := some (dep.dtype.getD "dependencies"), file := dep.file }
        else none := by
    unfold check_nodejs_upgrade
    rw [hreg]
  refine ⟨?_, ?_, ?_⟩
  · rw [hp]
    by_cases hv : latest = dep.version <;> simp [hv]
  · rw [hn]
    by_cases hv : latest = dep.version <;> simp [hv]
  · intro hv
    constructor <;>
      simp [find_cons, find_upgrade_candidates, checkDep, hp, hn, hv]

/-- Witness for C1 at the spec example: current version 1.0, reported
latest 1.0.0. -/
theorem candidate_iff_string_differs_witness :
    (((check_python_upgrade (fun _ => .ok "1.0.0")
        { name := "pkg", version := "1.0", file := "requirements.txt" }).isSome
      ↔ ("1.0.0" : String) ≠ "1.0")
    ∧ ((check_nodejs_upgrade (fun _ => .ok "1.0.0")
        { name := "pkg", version := "1.0", file := "requirements.txt" }).isSome
      ↔ ("1.0.0" : String) ≠ "1.0")
    ∧ (("1.0.0" : String) = "1.0" →
        find_upgrade_candidates (fun _ => .ok "1.0.0") "python"
          [{ name := "pkg", version := "1.0", file := "requirements.txt" }] = []
        ∧ find_upgrade_candidates (fun _ => .ok "1.0.0") "nodejs"
          [{ name := "pkg", version := "1.0", file := "requirements.txt" }] = [])) :=
  candidate_iff_string_differs (fun _ => .ok "1.0.0")
    { name := "pkg", version := "1.0", file := "requirements.txt" } "1.0.0" rfl

/-- C2: a dependency whose registry lookup fails (exception, caught inside
the checker) contributes no candidate, and the dependencies before and
after it in the list are still processed: the scan result is exactly the
concatenation of their results. -/
theorem erring_lookup_is_isolated (registry : String → RegistryResult) (pt : String)
    (d : Dep) (pre post : List Dep) (hd : registry d.name = .err)
    (hpt : pt = "python" ∨ pt = "nodejs") :
    checkDep registry pt d = none
    ∧ find_upgrade_candidates registry pt (pre ++ d :: post)
        = find_upgrade_candidates registry pt pre
          ++ find_upgrade_candidates registry pt post := by
  have hc : checkDep registry pt d = none := by
    rcases hpt with h | h <;> subst h <;>
      simp [checkDep, check_python_upgrade, check_nodejs_upgrade, hd]
  refine ⟨hc, ?_⟩
  rw [find_append, find_cons, hc]

/-- Witness for C2: the lookup of a fails while b before and after it is
still checked and flagged. -/
theorem erring_lookup_is_isolated_witness :
    ((fun n => if n = "a" then RegistryResult.err else RegistryResult.ok "9.9") "a"
        = RegistryResult.err)
    ∧ (("python" : String) = "python" ∨ ("python" : String) = "nodejs")
    ∧ (checkDep (fun n => if n = "a" then RegistryResult.err else RegistryResult.ok "9.9")
        "python" { name := "a", version := "1.0", file := "requirements.txt" } = none
      ∧ find_upgrade_candidates
          (fun n => if n = "a" then RegistryResult.err else RegistryResult.ok "9.9") "python"
          ([{ name := "b", version := "1.0", file := "requirements.txt" }]
            ++ { name := "a", version := "1.0", file := "requirements.txt" }
              :: [{ name := "c", version := "1.0", file := "requirements.txt" }])
        = find_upgrade_candidates
            (fun n => if n = "a" then RegistryResult.err else RegistryResult.ok "9.9") "python"
            [{ name := "b", version := "1.0", file := "requirements.txt" }]
          ++ find_upgrade_candidates
              (fun n => if n = "a" then RegistryResult.err else RegistryResult.ok "9.9") "python"
              [{ name := "c", version := "1.0", file := "requirements.txt" }]) :=
  ⟨by decide, Or.inl rfl,
    erring_lookup_is_isolated
      (fun n => if n = "a" then RegistryResult.err else RegistryResult.ok "9.9") "python"
      { name := "a", version := "1.0", file := "requirements.txt" }
      [{ name := "b", version := "1.0", file := "requirements.txt" }]
      [{ name := "c", version := "1.0", file := "requirements.txt" }]
      (by decide) (Or.inl rfl)⟩

/-- C3: the four-line example file yields exactly the two records of the
spec, and in general a line that strips to the empty string, strips to a
comment, or contains neither a == nor a >= separator yields no record. -/
theorem requirements_parsing (file l : String)
    (hdrop : pyStrip l = "" ∨ pyStartsWith (pyStrip l) "#" = true
      ∨ (containsSep "==" (pyStrip l) = false ∧ containsSep ">=" (pyStrip l) = false)) :
    parse_requirements_txt file (.reqLines ["a==1.0", "b>=2.0", "# comment", ""])
      = [{ name := "a", version := "1.0", constraint := some "==", file := file },
         { name := "b", version := "2.0", constraint := some ">=", file := file }]
    ∧ parseReqLine file l = none := by
  constructor
  · rfl
  · unfold parseReqLine
    dsimp only
    rcases hdrop with h | h | ⟨h1, h2⟩
    · rw [if_pos (Or.inl h)]
    · rw [if_pos (Or.inr h)]
    · by_cases h0 : pyStrip l = "" ∨ pyStartsWith (pyStrip l) "#" = true
      · rw [if_pos h0]
      · rw [if_neg h0, if_neg (by simp [h1]), if_neg (by simp [h2])]

/-- Witness for C3 with the dropped line c~=3.0, whose operator is neither
== nor >=. -/
theorem requirements_parsing_witness :
    (pyStrip "c~=3.0" = "" ∨ pyStartsWith (pyStrip "c~=3.0") "#" = true
      ∨ (containsSep "==" (pyStrip "c~=3.0") = false
         ∧ containsSep ">=" (pyStrip "c~=3.0") = false))
    ∧ (parse_requirements_txt "requirements.txt"
          (.reqLines ["a==1.0", "b>=2.0", "# comment", ""])
        = [{ name := "a", version := "1.0", constraint := some "==", file := "requirements.txt" },
           { name := "b", version := "2.0", constraint := some ">=", file := "requirements.txt" }]
      ∧ parseReqLine "requirements.txt" "c~=3.0" = none) :=
  ⟨by decide, requirements_parsing "requirements.txt" "c~=3.0" (by decide)⟩

/-- C4: package.json parsing iterates the dependencies map and then the
devDependencies map; a caret or tilde head is stripped off the version
and recorded as the constraint (the spec example on x yields exactly the
expected record), and a version with any other head is kept verbatim as
the version string. -/
theorem package_json_parsing (file name dt vCaret vTilde vOther : String)
    (hc : pyStartsWith vCaret "^" = true)
    (ht0 : pyStartsWith vTilde "^" = false) (ht : pyStartsWith vTilde "~" = true)
    (ho1 : pyStartsWith vOther "^" = false) (ho2 : pyStartsWith vOther "~" = false) :
    parse_package_json file (.pkgJson (some [("x", "^1.2.3")]) (some [("y", "~2.0.0")]))
      = [{ name := "x", version := "1.2.3", constraint := some "^",
           dtype := some "dependencies", file := file },
         { name := "y", version := "2.0.0", constraint := some "~",
           dtype := some "devDependencies", file := file }]
    ∧ parsePkgEntry dt file (name, vCaret)
        = { name := name, version := pyDrop vCaret 1, constraint := some "^",
            dtype := some dt, file := file }
    ∧ parsePkgEntry dt file (name, vTilde)
        = { name := name, version := pyDrop vTilde 1, constraint := some "~",
            dtype := some dt, file := file }
    ∧ (parsePkgEntry dt file (name, vOther)).version = vOther := by
  refine ⟨rfl, ?_, ?_, ?_⟩
  · simp [parsePkgEntry, hc]
  · simp [parsePkgEntry, ht0, ht]
  · simp [parsePkgEntry, ho1, ho2]

/-- Witness for C4 at caret, tilde and bare version strings. -/
theorem package_json_parsing_witness :
    (pyStartsWith "^3.1" "^" = true ∧ pyStartsWith "~4.2" "^" = false
      ∧ pyStartsWith "~4.2" "~" = true ∧ pyStartsWith ">=1.0.0" "^" = false
      ∧ pyStartsWith ">=1.0.0" "~" = false)
    ∧ (parse_package_json "package.json"
          (.pkgJson (some [("x", "^1.2.3")]) (some [("y", "~2.0.0")]))
        = [{ name := "x", version := "1.2.3", constraint := some "^",
             dtype := some "dependencies", file := "package.json" },
           { name := "y", version := "2.0.0", constraint := some "~",
             dtype := some "devDependencies", file := "package.json" }]
      ∧ parsePkgEntry "dependencies" "package.json" ("x", "^3.1")
          = { name := "x", version := pyDrop "^3.1" 1, constraint := some "^",
              dtype := some "dependencies", file := "package.json" }
      ∧ parsePkgEntry "dependencies" "package.json" ("x", "~4.2")
          = { name := "x", version := pyDrop "~4.2" 1, constraint := some "~",
              dtype := some "dependencies", file := "package.json" }
      ∧ (parsePkgEntry "dependencies" "package.json" ("x", ">=1.0.0")).version = ">=1.0.0") :=
  ⟨by decide,
    package_json_parsing "package.json" "x" "dependencies" "^3.1" "~4.2" ">=1.0.0"
      (by decide) (by decide) (by decide) (by decide) (by decide)⟩

/-- C5: project-type detection tests the marker families in the fixed
order python, nodejs, maven, gradle, dotnet, returning on the first
non-empty match; in particular a tree holding both a python marker and a
package.json is classified python. -/
theorem detection_first_match_wins (fs1 fs2 fs3 fs4 fs5 : List FsFile)
    (h1 : globName fs1 "requirements.txt" ≠ [] ∨ globName fs1 "setup.py" ≠ []
      ∨ globName fs1 "pyproject.toml" ≠ [])
    (h2a : ¬(globName fs2 "requirements.txt" ≠ [] ∨ globName fs2 "setup.py" ≠ []
      ∨ globName fs2 "pyproject.toml" ≠ []))
    (h2b : globName fs2 "package.json" ≠ [])
    (h3a : ¬(globName fs3 "requirements.txt" ≠ [] ∨ globName fs3 "setup.py" ≠ []
      ∨ globName fs3 "pyproject.toml" ≠ []))
    (h3b : ¬globName fs3 "package.json" ≠ [])
    (h3c : globName fs3 "pom.xml" ≠ [])
    (h4a : ¬(globName fs4 "requirements.txt" ≠ [] ∨ globName fs4 "setup.py" ≠ []
      ∨ globName fs4 "pyproject.toml" ≠ []))
    (h4b : ¬globName fs4 "package.json" ≠ []) (h4c : ¬globName fs4 "pom.xml" ≠ [])
    (h4d : globName fs4 "build.gradle" ++ globName fs4 "build.gradle.kts" ≠ [])
    (h5a : ¬(globName fs5 "requirements.txt" ≠ [] ∨ globName fs5 "setup.py" ≠ []
      ∨ globName fs5 "pyproject.toml" ≠ []))
    (h5b : ¬globName fs5 "package.json" ≠ []) (h5c : ¬globName fs5 "pom.xml" ≠ [])
    (h5d : ¬globName fs5 "build.gradle" ++ globName fs5 "build.gradle.kts" ≠ [])
    (h5e : globSuffix fs5 ".csproj" ≠ []) :
    (detect_project_type fs1).1 = some "python"
    ∧ (detect_project_type fs2).1 = some "nodejs"
    ∧ (detect_project_type fs3).1 = some "maven"
    ∧ (detect_project_type fs4).1 = some "gradle"
    ∧ (detect_project_type fs5).1 = some "dotnet"
    ∧ detect_project_type
        [⟨"requirements.txt", .reqLines []⟩, ⟨"package.json", .pkgJson none none⟩]
      = (some "python", [⟨"requirements.txt", .reqLines []⟩]) := by
  refine ⟨?_, ?_, ?_, ?_, ?_, by decide⟩
  · unfold detect_project_type
    rw [if_pos h1]
  · unfold detect_project_type
    rw [if_neg h2a, if_pos h2b]
  · unfold detect_project_type
    rw [if_neg h3a, if_neg h3b, if_pos h3c]
  · unfold detect_project_type
    rw [if_neg h4a, if_neg h4b, if_neg h4c, if_pos h4d]
  · unfold detect_project_type
    rw [if_neg h5a, if_neg h5b, if_neg h5c, if_neg h5d, if_pos h5e]

/-- Witness for C5 at one-file trees for each of the five ecosystems. -/
theorem detection_first_match_wins_witness :
    (detect_project_type [⟨"requirements.txt", .reqLines []⟩]).1 = some "python"
    ∧ (detect_project_type [⟨"package.json", .pkgJson none none⟩]).1 = some "nodejs"
    ∧ (detect_project_type [⟨"pom.xml", .pomTriples []⟩]).1 = some "maven"
    ∧ (detect_project_type [⟨"build.gradle", .unreadable⟩]).1 = some "gradle"
    ∧ (detect_project_type [⟨"app.csproj", .unreadable⟩]).1 = some "dotnet"
    ∧ detect_project_type
        [⟨"requirements.txt", .reqLines []⟩, ⟨"package.json", .pkgJson none none⟩]
      = (some "python", [⟨"requirements.txt", .reqLines []⟩]) :=
  detection_first_match_wins
    [⟨"requirements.txt", .reqLines []⟩] [⟨"package.json", .pkgJson none none⟩]
    [⟨"pom.xml", .pomTriples []⟩] [⟨"build.gradle", .unreadable⟩]
    [⟨"app.csproj", .unreadable⟩]
    (by decide) (by decide) (by decide) (by decide) (by decide) (by decide)
    (by decide) (by decide) (by decide) (by decide) (by decide) (by decide)
    (by decide) (by decide) (by decide)

/-- C6 counterexample: a tree holding only setup.py carries none of the
five marker names the claim lists (and no .csproj file), yet it is
classified python and setup.py is returned as a dependency file. -/
theorem marker_set_counterexample :
    (detect_project_type [⟨"setup.py", .reqLines []⟩]).1 = some "python"
    ∧ (detect_project_type [⟨"setup.py", .reqLines []⟩]).2 = [⟨"setup.py", .reqLines []⟩]
    ∧ fileName "setup.py"
        ∉ (["requirements.txt", "package.json", "pom.xml", "build.gradle"] : List String)
    ∧ pyEndsWith (fileName "setup.py") ".csproj" = false := by decide

/-- C6 amended: the closed marker set of the detector is requirements.txt,
setup.py, pyproject.toml, package.json, pom.xml, build.gradle,
build.gradle.kts and *.csproj; a tree with none of these is classified
into no ecosystem type with no dependency files, and every returned
dependency file bears one of these marker names. -/
theorem marker_set_closed (files files2 : List FsFile)
    (h : ∀ f ∈ files, ¬ isMarkerFile f) :
    detect_project_type files = (none, [])
    ∧ ∀ f ∈ (detect_project_type files2).2, isMarkerFile f :=
  ⟨detect_none_of_no_markers files h, detect_files_are_markers files2⟩

/-- Witness for C6 amended: a markerless one-file tree and a python tree. -/
theorem marker_set_closed_witness :
    (∀ f ∈ ([⟨"README.md", .unreadable⟩] : List FsFile), ¬ isMarkerFile f)
    ∧ (detect_project_type [⟨"README.md", .unreadable⟩] = (none, [])
      ∧ ∀ f ∈ (detect_project_type [⟨"requirements.txt", .reqLines []⟩]).2, isMarkerFile f) :=
  ⟨by decide,
    marker_set_closed [⟨"README.md", .unreadable⟩] [⟨"requirements.txt", .reqLines []⟩]
      (by decide)⟩

/-- C7 counterexample: scanning a markerless directory returns the dict
holding only the error entry; it carries no dependencies entry at all, so
in particular not an empty dependency list. -/
theorem unknown_type_counterexample :
    (run true [⟨"README.md", .unreadable⟩] (fun _ => .err)).error
        = some "Could not determine project type"
    ∧ (run true [⟨"README.md", .unreadable⟩] (fun _ => .err)).dependencies = none
    ∧ (run true [⟨"README.md", .unreadable⟩] (fun _ => .err)).dependencies ≠ some [] := by
  decide

/-- C7 amended: scanning a directory with no recognized marker file
returns (never raises) a value whose only populated entry is the explicit
error message; it carries no dependency list at all (rather than an empty
one), and no upgrade checking is performed: the result does not depend on
the registry. -/
theorem unknown_type_error_result (files : List FsFile)
    (reg reg2 : String → RegistryResult) (h : ∀ f ∈ files, ¬ isMarkerFile f) :
    (run true files reg).error = some "Could not determine project type"
    ∧ (run true files reg).project_type = none
    ∧ (run true files reg).dependency_files = none
    ∧ (run true files reg).dependencies = none
    ∧ (run true files reg).upgrade_candidates = none
    ∧ run true files reg = run true files reg2 := by
  have hdet := detect_none_of_no_markers files h
  have hrun : ∀ r : String → RegistryResult,
      run true files r = { error := some "Could not determine project type" } := by
    intro r
    simp [run, hdet]
  simp [hrun]

/-- Witness for C7 amended: a markerless tree under two registries that
disagree everywhere. -/
theorem unknown_type_error_result_witness :
    (∀ f ∈ ([⟨"README.md", .unreadable⟩] : List FsFile), ¬ isMarkerFile f)
    ∧ ((run true [⟨"README.md", .unreadable⟩] (fun _ => RegistryResult.err)).error
          = some "Could not determine project type"
      ∧ (run true [⟨"README.md", .unreadable⟩] (fun _ => RegistryResult.err)).project_type = none
      ∧ (run true [⟨"README.md", .unreadable⟩] (fun _ => RegistryResult.err)).dependency_files = none
      ∧ (run true [⟨"README.md", .unreadable⟩] (fun _ => RegistryResult.err)).dependencies = none
      ∧ (run true [⟨"README.md", .unreadable⟩] (fun _ => RegistryResult.err)).upgrade_candidates = none
      ∧ run true [⟨"README.md", .unreadable⟩] (fun _ => RegistryResult.err)
          = run true [⟨"README.md", .unreadable⟩] (fun _ => RegistryResult.ok "1.0")) :=
  ⟨by decide,
    unknown_type_error_result [⟨"README.md", .unreadable⟩]
      (fun _ => RegistryResult.err) (fun _ => RegistryResult.ok "1.0") (by decide)⟩

/-- C8 counterexample: a scan of a requirements.txt declaring a twice
(an exact and a minimum line) against a registry reporting 3.0 yields two
candidates named a, and the candidate name a matches two parsed
dependency records, not exactly one. -/
theorem candidate_name_multiplicity_counterexample :
    ((run true [⟨"requirements.txt", .reqLines ["a==1.0", "a>=2.0"]⟩]
        (fun _ => RegistryResult.ok "3.0")).upgrade_candidates.getD []).map Candidate.name
      = ["a", "a"]
    ∧ (((run true [⟨"requirements.txt", .reqLines ["a==1.0", "a>=2.0"]⟩]
        (fun _ => RegistryResult.ok "3.0")).dependencies.getD []).filter
          (fun d => d.name = "a")).length = 2 := by
  decide

/-- C8 amended: in every completed scan, each upgrade candidate in the
report is named after at least one dependency record parsed in the same
scan (several records may share that name), and the candidate list is at
most as long as the dependency list. -/
theorem scan_candidate_names (files : List FsFile) (registry : String → RegistryResult)
    (deps : List Dep) (cands : List Candidate) (c : Candidate)
    (hdeps : (run true files registry).dependencies = some deps)
    (hcands : (run true files registry).upgrade_candidates = some cands)
    (hc : c ∈ cands) :
    (∃ d ∈ deps, d.name = c.name) ∧ cands.length ≤ deps.length := by
  rcases hdet : detect_project_type files with ⟨pt?, dfs⟩
  cases pt? with
  | none =>
      simp [run, hdet] at hdeps
  | some pt =>
      simp only [run, hdet, Bool.not_true] at hdeps hcands
      simp at hdeps hcands
      subst hdeps
      subst hcands
      refine ⟨?_, find_length_le registry pt _⟩
      obtain ⟨d, hd, hcd⟩ := mem_find registry pt hc
      exact ⟨d, hd, (checkDep_name hcd (parse_dependencies_nameConsistent hd)).symm⟩

/-- The dependency record of the one-line scan used by the C8 witness. -/
def sampleScanDep : Dep :=
  { name := "a", version := "1.0", constraint := some "==", file := "requirements.txt" }

/-- The candidate record of the one-line scan used by the C8 witness. -/
def sampleScanCand : Candidate :=
  { name := "a", current_version := "1.0", latest_version := "2.0",
    file := "requirements.txt" }

/-- Witness for C8 amended at a one-dependency python scan. -/
theorem scan_candidate_names_witness :
    ((run true [⟨"requirements.txt", .reqLines ["a==1.0"]⟩]
        (fun _ => RegistryResult.ok "2.0")).dependencies = some [sampleScanDep])
    ∧ ((run true [⟨"requirements.txt", .reqLines ["a==1.0"]⟩]
        (fun _ => RegistryResult.ok "2.0")).upgrade_candidates = some [sampleScanCand])
    ∧ sampleScanCand ∈ [sampleScanCand]
    ∧ ((∃ d ∈ [sampleScanDep], d.name = sampleScanCand.name)
      ∧ [sampleScanCand].length ≤ [sampleScanDep].length) :=
  ⟨by decide, by decide, by decide,
    scan_candidate_names [⟨"requirements.txt", .reqLines ["a==1.0"]⟩]
      (fun _ => RegistryResult.ok "2.0") [sampleScanDep] [sampleScanCand] sampleScanCand
      (by decide) (by decide) (by decide)⟩

/-- C9: for every scan whose project type is detected, the assembled
report carries the parser output and the checker output unchanged; in
particular every dependency record keeps the source-file provenance the
parser recorded. -/
theorem report_preserves_parser_output (files : List FsFile)
    (registry : String → RegistryResult) (pt : String) (dfs : List FsFile)
    (hdet : detect_project_type files = (some pt, dfs)) :
    (run true files registry).dependencies = some (parse_dependencies pt dfs)
    ∧ (run true files registry).upgrade_candidates
        = some (find_upgrade_candidates registry pt (parse_dependencies pt dfs))
    ∧ ((run true files registry).dependencies.getD []).map Dep.file
        = (parse_dependencies pt dfs).map Dep.file := by
  refine ⟨?_, ?_, ?_⟩ <;> simp [run, hdet]

/-- Witness for C9 at a one-dependency python scan. -/
theorem report_preserves_parser_output_witness :
    ((run true [⟨"requirements.txt", .reqLines ["a==1.0"]⟩]
        (fun _ => RegistryResult.ok "2.0")).dependencies
      = some (parse_dependencies "python" [⟨"requirements.txt", .reqLines ["a==1.0"]⟩]))
    ∧ ((run true [⟨"requirements.txt", .reqLines ["a==1.0"]⟩]
        (fun _ => RegistryResult.ok "2.0")).upgrade_candidates
      = some (find_upgrade_candidates (fun _ => RegistryResult.ok "2.0") "python"
          (parse_dependencies "python" [⟨"requirements.txt", .reqLines ["a==1.0"]⟩])))
    ∧ ((run true [⟨"requirements.txt", .reqLines ["a==1.0"]⟩]
        (fun _ => RegistryResult.ok "2.0")).dependencies.getD []).map Dep.file
      = (parse_dependencies "python" [⟨"requirements.txt", .reqLines ["a==1.0"]⟩]).map Dep.file :=
  report_preserves_parser_output [⟨"requirements.txt", .reqLines ["a==1.0"]⟩]
    (fun _ => RegistryResult.ok "2.0") "python"
    [⟨"requirements.txt", .reqLines ["a==1.0"]⟩] (by decide)

/-- C10: a package.json version with neither a caret nor a tilde head is
recorded with constraint caret, the same constraint value as an
explicitly caret-prefixed version, while the version string itself is
kept unmodified. -/
theorem bare_version_default_constraint (file name dt version : String)
    (h1 : pyStartsWith version "^" = false) (h2 : pyStartsWith version "~" = false) :
    parsePkgEntry dt file (name, version)
      = { name := name, version := version, constraint := some "^",
          dtype := some dt, file := file }
    ∧ (parsePkgEntry dt file (name, version)).constraint
        = (parsePkgEntry dt file (name, "^1.2.3")).constraint := by
  have he : parsePkgEntry dt file (name, version)
      = { name := name, version := version, constraint := some "^",
          dtype := some dt, file := file } := by
    simp [parsePkgEntry, h1, h2]
  exact ⟨he, by rw [he]; rfl⟩

/-- Witness for C10 at a range-form version string. -/
theorem bare_version_default_constraint_witness :
    (pyStartsWith ">=1.0.0" "^" = false ∧ pyStartsWith ">=1.0.0" "~" = false)
    ∧ (parsePkgEntry "dependencies" "package.json" ("x", ">=1.0.0")
        = { name := "x", version := ">=1.0.0", constraint := some "^",
            dtype := some "dependencies", file := "package.json" }
      ∧ (parsePkgEntry "dependencies" "package.json" ("x", ">=1.0.0")).constraint
          = (parsePkgEntry "dependencies" "package.json" ("x", "^1.2.3")).constraint) :=
  ⟨by decide,
    bare_version_default_constraint "package.json" "x" "dependencies" ">=1.0.0"
      (by decide) (by decide)⟩

end DepScan
